import Mathlib

/-!
Verification of the streaming-object client (`packages/svelte/src/lib/object.svelte.ts`)
and the `defaultSettingsMiddleware` fragment of this repository.

The client is embedded shallowly as a deterministic state machine. External
collaborators (`parsePartialJson`, `isDeepEqualData`, `safeValidateTypes`,
`JSON.stringify`, and the fetch outcome) are abstract parameters collected in
`SubmitEnv`; callback invocations (`onFinish`, `onError`) and the calls to
`safeValidateTypes` are recorded in the result instead of being executed, so
that theorems can speak about which callbacks fire and with which payloads.
Errors are represented by their message strings.
-/

/-- Pointwise update of a string-keyed map, mirroring `SvelteMap.set`.
A value of `none` plays the role of `undefined` (for `get`, a key that was
never set and a key set to `undefined` are observationally identical). -/
def setMap {V : Type} (m : String → Option V) (k : String) (v : Option V) :
    String → Option V :=
  fun k2 => if k2 = k then v else m k2

/-- The mutable fields of `ObjectClient`: the `#objects` map, `#error`,
`#loading`, and whether `#abortController` currently holds a controller. -/
structure ClientState (V : Type) where
  objects : String → Option V
  error : Option String
  loading : Bool
  hasAbortController : Bool

/-- The constructor options (`Experimental_ObjecClienttOptions`). The two
callbacks are modelled by presence flags (`onFinish != null`, `onError`
truthy); `headers` is the configured extra-header record as a partial map. -/
structure ClientOptions (V : Type) where
  api : Option String
  id : Option String
  initialValue : Option V
  headers : String → Option String
  hasOnFinish : Bool
  hasOnError : Bool

/-- A thrown JavaScript value: an abort error, an `Error` instance carrying a
message, or a non-`Error` value whose `String(...)` form is recorded. -/
inductive JsError where
  | abortError : JsError
  | errorObject (message : String) : JsError
  | thrownValue (asString : String) : JsError
deriving DecidableEq

/-- `isAbortError` from `@ai-sdk/provider-utils`: recognizes the abort error. -/
def isAbortError : JsError → Bool
  | .abortError => true
  | _ => false

/-- `error instanceof Error ? error : new Error(String(error))` — the message
of the coalesced error delivered to `onError` and stored in `#error`. -/
def coalesceError : JsError → String
  | .abortError => "AbortError"
  | .errorObject message => message
  | .thrownValue asString => asString

/-- How the response body stream ends: it is closed after delivering all
chunks, aborted after a prefix of chunks, or fails with an error after a
prefix of chunks. -/
inductive StreamOutcome where
  | closed (chunks : List String)
  | aborted (chunks : List String)
  | failed (chunks : List String) (e : JsError)
deriving DecidableEq

/-- The outcome of the `fetch` call: either `fetch` itself throws, or it
returns a response with an `ok` flag, the text used for the non-ok error
message, and an optional body stream. -/
inductive FetchOutcome where
  | fetchThrown (e : JsError)
  | response (ok : Bool) (responseText : Option String) (body : Option StreamOutcome)
deriving DecidableEq

/-- The abstract environment of one `submit` run: the library collaborators
(`parsePartialJson` as `parseJson`, `isDeepEqualData`, `safeValidateTypes`,
`JSON.stringify` as `stringifyJson`) and the fetch outcome. Schema validation
returns either the typed value or a validation error message. -/
structure SubmitEnv (V R I : Type) where
  parseJson : String → Option V
  isDeepEqualData : Option V → Option V → Bool
  safeValidateTypes : Option V → Except String R
  stringifyJson : I → String
  outcome : FetchOutcome

/-- The HTTP request issued by `submit`. -/
structure HttpRequest where
  method : String
  url : String
  headers : String → Option String
  body : String

/-- The observable result of a `submit` run: the final client state, the
request that was issued, the `onFinish` invocations (pairs of the `object`
and `error` event fields), the `onError` invocations (error messages), and
the values passed to `safeValidateTypes`. -/
structure SubmitResult (V R : Type) where
  state : ClientState V
  request : HttpRequest
  onFinishCalls : List (Option R × Option String)
  onErrorCalls : List String
  validateCalls : List (Option V)

/-- `this.#api`: the configured endpoint with its default. -/
def actualApi {V : Type} (opts : ClientOptions V) : String :=
  opts.api.getD "/api/completion"

/-- `this.#id`: the configured id, or the generated one. -/
def actualId {V : Type} (opts : ClientOptions V) (generatedId : String) : String :=
  opts.id.getD generatedId

/-- The request headers: the literal `"Content-Type": "application/json"`
entry, overridden by the spread of the configured headers. -/
def requestHeaders {V : Type} (opts : ClientOptions V) : String → Option String :=
  fun k =>
    match opts.headers k with
    | some v => some v
    | none => if k = "Content-Type" then some "application/json" else none

/-- The request built by `submit`: POST to `#api` with the JSON body. -/
def buildRequest {V R I : Type} (env : SubmitEnv V R I) (opts : ClientOptions V)
    (input : I) : HttpRequest :=
  { method := "POST"
    url := actualApi opts
    headers := requestHeaders opts
    body := env.stringifyJson input }

/-- The opening statements of `submit`, before the fetch: reset the object for
this id, set loading, clear the error, install a fresh abort controller. -/
def submitStart {V : Type} (opts : ClientOptions V) (generatedId : String)
    (st : ClientState V) : ClientState V :=
  { objects := setMap st.objects (actualId opts generatedId) none
    error := none
    loading := true
    hasAbortController := true }

/-- The local state threaded through the `WritableStream` write handler:
`accumulatedText`, `latestObject`, and the `#objects` map. -/
structure StreamAcc (V : Type) where
  accumulatedText : String
  latestObject : Option V
  objects : String → Option V

/-- The `write` handler: append the chunk, parse the accumulated text, and
publish the parsed value only when it is not deep-equal to `latestObject`. -/
def writeChunk {V : Type} (parse : String → Option V)
    (deepEq : Option V → Option V → Bool) (id : String)
    (s : StreamAcc V) (chunk : String) : StreamAcc V :=
  let acc2 := s.accumulatedText ++ chunk
  let currentObject := parse acc2
  if deepEq s.latestObject currentObject then
    { s with accumulatedText := acc2 }
  else
    { accumulatedText := acc2
      latestObject := currentObject
      objects := setMap s.objects id currentObject }

/-- Run the write handler over a list of delivered chunks. -/
def runChunks {V : Type} (parse : String → Option V)
    (deepEq : Option V → Option V → Bool) (id : String)
    (chunks : List String) (s : StreamAcc V) : StreamAcc V :=
  chunks.foldl (writeChunk parse deepEq id) s

/-- The stream state after the delivered chunks of a `submit` run, starting
from empty accumulated text, `latestObject = undefined`, and the objects map
of the post-reset client state. -/
def streamRun {V R I : Type} (env : SubmitEnv V R I) (id : String)
    (st1 : ClientState V) (chunks : List String) : StreamAcc V :=
  runChunks env.parseJson env.isDeepEqualData id chunks
    { accumulatedText := "", latestObject := none, objects := st1.objects }

/-- The `close` handler: clear loading and the abort controller; when an
`onFinish` callback is configured, validate `latestObject` and invoke the
callback with the validated value or the validation error. -/
def handleClose {V R I : Type} (env : SubmitEnv V R I) (opts : ClientOptions V)
    (latestObject : Option V) (st : ClientState V) :
    ClientState V × List (Option R × Option String) × List (Option V) :=
  let st2 := { st with loading := false, hasAbortController := false }
  if opts.hasOnFinish then
    match env.safeValidateTypes latestObject with
    | .ok v => (st2, [(some v, none)], [latestObject])
    | .error e => (st2, [(none, some e)], [latestObject])
  else (st2, [], [])

/-- The `catch` block of `submit`: an abort error returns silently; any other
error is coalesced, reported to `onError` when configured, and stored in
`#error` with loading cleared. -/
def handleCatch {V : Type} (opts : ClientOptions V) (e : JsError)
    (st : ClientState V) : ClientState V × List String :=
  if isAbortError e then (st, [])
  else
    let msg := coalesceError e
    ({ st with loading := false, error := some msg },
      if opts.hasOnError then [msg] else [])

/-- The body of `submit` after the reset statements, dispatching on the fetch
outcome: a thrown fetch goes to the catch block; a non-ok response throws
`Error(await response.text())`; a null body throws
`Error("The response body is empty.")`; otherwise the chunks are streamed
through the write handler and the run ends in `close`, an abort, or a stream
error routed to the catch block. -/
def submitResumed {V R I : Type} (env : SubmitEnv V R I) (opts : ClientOptions V)
    (outcome : FetchOutcome) (id : String) (req : HttpRequest)
    (st1 : ClientState V) : SubmitResult V R :=
  match outcome with
  | .fetchThrown e =>
      let r := handleCatch opts e st1
      ⟨r.1, req, [], r.2, []⟩
  | .response false responseText _ =>
      let r := handleCatch opts
        (.errorObject (responseText.getD "Failed to fetch the response.")) st1
      ⟨r.1, req, [], r.2, []⟩
  | .response true _ none =>
      let r := handleCatch opts (.errorObject "The response body is empty.") st1
      ⟨r.1, req, [], r.2, []⟩
  | .response true _ (some (.closed chunks)) =>
      let s := runChunks env.parseJson env.isDeepEqualData id chunks
        { accumulatedText := "", latestObject := none, objects := st1.objects }
      let r := handleClose env opts s.latestObject { st1 with objects := s.objects }
      ⟨r.1, req, r.2.1, [], r.2.2⟩
  | .response true _ (some (.aborted chunks)) =>
      let s := runChunks env.parseJson env.isDeepEqualData id chunks
        { accumulatedText := "", latestObject := none, objects := st1.objects }
      let r := handleCatch opts .abortError { st1 with objects := s.objects }
      ⟨r.1, req, [], r.2, []⟩
  | .response true _ (some (.failed chunks e)) =>
      let s := runChunks env.parseJson env.isDeepEqualData id chunks
        { accumulatedText := "", latestObject := none, objects := st1.objects }
      let r := handleCatch opts e { st1 with objects := s.objects }
      ⟨r.1, req, [], r.2, []⟩

/-- `ObjectClient.submit`: reset the state, build and issue the request, and
process the fetch outcome. -/
def submit {V R I : Type} (env : SubmitEnv V R I) (opts : ClientOptions V)
    (generatedId : String) (st : ClientState V) (input : I) : SubmitResult V R :=
  submitResumed env opts env.outcome (actualId opts generatedId)
    (buildRequest env opts input) (submitStart opts generatedId st)

/-- `ObjectClient.stop`: abort the in-flight request; in the `finally` block,
clear loading and drop the abort controller. The objects map and the error
field are untouched. -/
def stop {V : Type} (st : ClientState V) : ClientState V :=
  { st with loading := false, hasAbortController := false }

/-- The `ObjectClient` constructor: store the options and set the initial
value for this client's id in the objects map. -/
def initClient {V : Type} (opts : ClientOptions V) (generatedId : String) :
    ClientState V :=
  { objects := setMap (fun _ => none) (actualId opts generatedId) opts.initialValue
    error := none
    loading := false
    hasAbortController := false }

/-- The `object` getter: `this.#objects.get(this.#id)`. -/
def objectValue {V : Type} (opts : ClientOptions V) (generatedId : String)
    (st : ClientState V) : Option V :=
  st.objects (actualId opts generatedId)

/-! ### The `defaultSettingsMiddleware` fragment -/

/-- A `LanguageModelV1CallOptions` record together with its optional
`providerMetadata`: the ordinary keys as a partial map, and the
provider-metadata object (itself a partial map) kept separate because the
middleware treats it specially. -/
structure MwParams (A M : Type) where
  fields : String → Option A
  providerMetadata : Option (String → Option M)

/-- Modelled from the spec: `mergeObjects` is imported by
`defaultSettingsMiddleware` from `../util/merge-objects`, whose source is not
in this slice; per the specification of the middleware the two
provider-metadata objects are merged with the second argument's entries
overriding the first, and an absent argument leaves the other unchanged. -/
def mergeObjects {M : Type} :
    Option (String → Option M) → Option (String → Option M) →
      Option (String → Option M)
  | none, none => none
  | some a, none => some a
  | none, some b => some b
  | some a, some b => some (fun k => match b k with | some v => some v | none => a k)

/-- A `LanguageModelV1Middleware` value as produced here: the version tag and
the `transformParams` step. -/
structure MwMiddleware (A M : Type) where
  middlewareVersion : String
  transformParams : MwParams A M → MwParams A M

/-- `defaultSettingsMiddleware`: spread the default settings, then the call
params (params win on every shared key), then overwrite `providerMetadata`
with the merge of the two provider-metadata objects. -/
def defaultSettingsMiddleware {A M : Type} (settings : MwParams A M) :
    MwMiddleware A M :=
  { middlewareVersion := "v1"
    transformParams := fun params =>
      { fields := fun k =>
          match params.fields k with
          | some v => some v
          | none => settings.fields k
        providerMetadata :=
          mergeObjects settings.providerMetadata params.providerMetadata } }

/-! ### Concrete instantiations used by witnesses and counterexamples -/

/-- A concrete environment over `Nat` values: the parser reads the length of
the accumulated text, deep equality is `==`, and validation accepts values
of at least 2. -/
def envBase : SubmitEnv Nat Nat Unit :=
  { parseJson := fun t => some t.length
    isDeepEqualData := fun a b => a == b
    safeValidateTypes := fun v =>
      match v with
      | some n => if 2 ≤ n then Except.ok n else Except.error "too short"
      | none => Except.error "no value"
    stringifyJson := fun _ => "null"
    outcome := FetchOutcome.fetchThrown JsError.abortError }

/-- Options with both callbacks configured. -/
def optsW : ClientOptions Nat :=
  { api := none
    id := some "obj"
    initialValue := none
    headers := fun _ => none
    hasOnFinish := true
    hasOnError := true }

/-- The environment of a run whose stream closes after one chunk. -/
def envClosed : SubmitEnv Nat Nat Unit :=
  { envBase with outcome := .response true none (some (.closed ["a"])) }

/-- The environment of a run aborted after one chunk. -/
def envAbort : SubmitEnv Nat Nat Unit :=
  { envBase with outcome := .response true none (some (.aborted ["a"])) }

/-- The environment of a run whose response is non-ok with body text. -/
def envHttpFail : SubmitEnv Nat Nat Unit :=
  { envBase with outcome := .response false (some "boom") none }

/-- Options with no `onFinish` callback. -/
def optsNoFinish : ClientOptions Nat := { optsW with hasOnFinish := false }

/-- Options whose configured headers override `Content-Type`. -/
def optsCT : ClientOptions Nat :=
  { optsW with headers := fun k => if k = "Content-Type" then some "text/plain" else none }

/-- Options with an extra configured header. -/
def optsHdr : ClientOptions Nat :=
  { optsW with headers := fun k => if k = "X-Api-Key" then some "k1" else none }

/-- The error message of the two failure throw sites guarded by the response
checks: the non-ok branch uses the response text (with its fallback), the
null-body branch uses the fixed message. -/
def failureMessage (ok : Bool) (responseText : Option String) : String :=
  if ok then "The response body is empty."
  else responseText.getD "Failed to fetch the response."

/-- Default settings used by the C9 witness. -/
def settingsW : MwParams Nat Nat :=
  { fields := fun k => if k = "temperature" then some 7 else none
    providerMetadata := some (fun k =>
      if k = "a" then some 1 else if k = "b" then some 2 else none) }

/-- Call params used by the C9 witness. -/
def paramsW : MwParams Nat Nat :=
  { fields := fun k => if k = "temperature" then some 3 else none
    providerMetadata := some (fun k => if k = "a" then some 9 else none) }

/-! ### Theorems -/

/-- C10: after constructing an `ObjectClient` and before any `submit`, the
`object` getter returns `options.initialValue`, the error field is
undefined, and the loading flag is false. -/
theorem c10_initial_state {V : Type} (opts : ClientOptions V) (generatedId : String) :
    objectValue opts generatedId (initClient opts generatedId) = opts.initialValue ∧
    (initClient opts generatedId).error = none ∧
    (initClient opts generatedId).loading = false := by
  refine ⟨?_, rfl, rfl⟩
  simp [objectValue, initClient, setMap]

/-- C6: at the start of every `submit` call, before the HTTP request is
issued, the stored partial object for the client's id is set to undefined,
loading is set true, and the error field is cleared: `submit` factors
through `submitStart`, and the post-reset state has no object, loading
true, and no error, whatever the prior state held. -/
theorem c6_reset_before_request {V R I : Type} (env : SubmitEnv V R I)
    (opts : ClientOptions V) (generatedId : String) (st : ClientState V) (input : I) :
    submit env opts generatedId st input =
      submitResumed env opts env.outcome (actualId opts generatedId)
        (buildRequest env opts input) (submitStart opts generatedId st) ∧
    (submitStart opts generatedId st).objects (actualId opts generatedId) = none ∧
    (submitStart opts generatedId st).loading = true ∧
    (submitStart opts generatedId st).error = none := by
  refine ⟨rfl, ?_, rfl, rfl⟩
  simp [submitStart, setMap]

/-- C9: the object returned by `defaultSettingsMiddleware`'s
`transformParams` step gives params precedence over the default settings on
every key present in params, while `providerMetadata` is the merge of the
two provider-metadata objects, with params' entries overriding the
defaults. -/
theorem c9_default_settings {A M : Type} (settings params : MwParams A M) :
    ((defaultSettingsMiddleware settings).transformParams params).providerMetadata =
      mergeObjects settings.providerMetadata params.providerMetadata ∧
    (∀ k v, params.fields k = some v →
      ((defaultSettingsMiddleware settings).transformParams params).fields k = some v) ∧
    (∀ pm k v, params.providerMetadata = some pm → pm k = some v →
      ∃ m, ((defaultSettingsMiddleware settings).transformParams params).providerMetadata
          = some m ∧ m k = some v) ∧
    (∀ sm pm k, settings.providerMetadata = some sm →
      params.providerMetadata = some pm → pm k = none →
      ∃ m, ((defaultSettingsMiddleware settings).transformParams params).providerMetadata
          = some m ∧ m k = sm k) := by
  refine ⟨rfl, ?_, ?_, ?_⟩
  · intro k v h
    simp [defaultSettingsMiddleware, h]
  · intro pm k v hpm hk
    cases hs : settings.providerMetadata with
    | none =>
        exact ⟨pm, by simp [defaultSettingsMiddleware, mergeObjects, hpm, hs], hk⟩
    | some sm =>
        refine ⟨fun k2 => match pm k2 with | some w => some w | none => sm k2,
          by simp [defaultSettingsMiddleware, mergeObjects, hpm, hs], ?_⟩
        simp [hk]
  · intro sm pm k hs hpm hk
    refine ⟨fun k2 => match pm k2 with | some w => some w | none => sm k2,
      by simp [defaultSettingsMiddleware, mergeObjects, hpm, hs], ?_⟩
    simp [hk]

/-- C9 witness: on concrete settings and params, the params' temperature
wins, the params' provider-metadata entry overrides the default, and a
default-only provider-metadata entry survives the merge. -/
theorem c9_witness :
    ((defaultSettingsMiddleware settingsW).transformParams paramsW).fields
        "temperature" = some 3 ∧
    (((defaultSettingsMiddleware settingsW).transformParams paramsW).providerMetadata.getD
        (fun _ => none)) "a" = some 9 ∧
    (((defaultSettingsMiddleware settingsW).transformParams paramsW).providerMetadata.getD
        (fun _ => none)) "b" = some 2 := by
  obtain ⟨hm1, hf, hov, hpre⟩ := c9_default_settings settingsW paramsW
  obtain ⟨m, hm, hk⟩ := hov _ "a" 9 rfl rfl
  obtain ⟨m2, hm2, hk2⟩ := hpre _ _ "b" rfl rfl (by decide)
  refine ⟨hf "temperature" 3 rfl, ?_, ?_⟩
  · rw [hm]
    exact hk
  · rw [hm2]
    exact hk2.trans (by decide)

/-- C7: a stream chunk updates the publicly visible object value only when
the value parsed from the accumulated text is not deep-equal to the
previously published value; a deep-equal parse causes no state update, and
the published value stays in sync with `latestObject`. -/
theorem c7_publish_only_on_change {V : Type} (parse : String → Option V)
    (deepEq : Option V → Option V → Bool) (id : String) (s : StreamAcc V)
    (chunk : String) (hsync : s.objects id = s.latestObject) :
    (deepEq s.latestObject (parse (s.accumulatedText ++ chunk)) = true →
      (writeChunk parse deepEq id s chunk).objects = s.objects ∧
      (writeChunk parse deepEq id s chunk).latestObject = s.latestObject) ∧
    (deepEq s.latestObject (parse (s.accumulatedText ++ chunk)) = false →
      (writeChunk parse deepEq id s chunk).objects id
          = parse (s.accumulatedText ++ chunk) ∧
      (writeChunk parse deepEq id s chunk).latestObject
          = parse (s.accumulatedText ++ chunk)) ∧
    (writeChunk parse deepEq id s chunk).objects id
        = (writeChunk parse deepEq id s chunk).latestObject := by
  refine ⟨?_, ?_, ?_⟩
  · intro h
    simp [writeChunk, h]
  · intro h
    simp [writeChunk, h, setMap]
  · cases h : deepEq s.latestObject (parse (s.accumulatedText ++ chunk)) with
    | true => simp [writeChunk, h, hsync]
    | false => simp [writeChunk, h, setMap]

/-- C7 witness: from the initial stream state, a chunk whose parse differs
from the unset latest object is published and recorded. -/
theorem c7_witness :
    (writeChunk (fun t => some t.length) (fun a b => a == b) "obj"
      { accumulatedText := "", latestObject := none, objects := fun _ => none }
      "a").objects "obj" = some 1 ∧
    (writeChunk (fun t => some t.length) (fun a b => a == b) "obj"
      { accumulatedText := "", latestObject := none, objects := fun _ => none }
      "a").latestObject = some 1 := by
  have h := c7_publish_only_on_change (fun t => some t.length) (fun a b => a == b)
    "obj" { accumulatedText := "", latestObject := none, objects := fun _ => none }
    "a" rfl
  have h2 := h.2.1 (by decide)
  exact ⟨h2.1.trans (by decide), h2.2.trans (by decide)⟩

/-- Helper: every branch of `submitResumed` reports the request it was given. -/
lemma submitResumed_request {V R I : Type} (env : SubmitEnv V R I)
    (opts : ClientOptions V) (outcome : FetchOutcome) (id : String)
    (req : HttpRequest) (st1 : ClientState V) :
    (submitResumed env opts outcome id req st1).request = req := by
  cases outcome with
  | fetchThrown e => rfl
  | response ok responseText body =>
    cases ok with
    | false => rfl
    | true =>
      cases body with
      | none => rfl
      | some so => cases so <;> rfl

/-- Helper: any `onFinish` event produced by the close handler carries either
a validated value and no error, or no value and a validation error. -/
lemma handleClose_finish_mem {V R I : Type} (env : SubmitEnv V R I)
    (opts : ClientOptions V) (l : Option V) (st : ClientState V)
    (p : Option R × Option String) (hp : p ∈ (handleClose env opts l st).2.1) :
    (p.1.isSome = true ∧ p.2 = none) ∨ (p.1 = none ∧ p.2.isSome = true) := by
  cases hfin : opts.hasOnFinish with
  | false => simp [handleClose, hfin] at hp
  | true =>
    cases hv : env.safeValidateTypes l with
    | ok v =>
        simp [handleClose, hfin, hv] at hp
        exact Or.inl (by simp [hp])
    | error e =>
        simp [handleClose, hfin, hv] at hp
        exact Or.inr (by simp [hp])

/-- Helper: the values handed to `safeValidateTypes` by the close handler. -/
lemma handleClose_validateCalls {V R I : Type} (env : SubmitEnv V R I)
    (opts : ClientOptions V) (l : Option V) (st : ClientState V) :
    (handleClose env opts l st).2.2 = if opts.hasOnFinish then [l] else [] := by
  cases hfin : opts.hasOnFinish with
  | false => simp [handleClose, hfin]
  | true =>
    cases hv : env.safeValidateTypes l with
    | ok v => simp [handleClose, hfin, hv]
    | error e => simp [handleClose, hfin, hv]

/-- C1: when the stream closes and the final parsed value fails schema
validation, `onFinish` is invoked with `object` undefined and the validation
error, `onError` is never invoked, and the exposed error field stays unset. -/
theorem c1_validation_error_only_via_finish {V R I : Type} (env : SubmitEnv V R I)
    (opts : ClientOptions V) (generatedId : String) (st : ClientState V) (input : I)
    (responseText : Option String) (chunks : List String) (e : String)
    (hout : env.outcome = .response true responseText (some (.closed chunks)))
    (hfin : opts.hasOnFinish = true)
    (hval : env.safeValidateTypes
        (streamRun env (actualId opts generatedId) (submitStart opts generatedId st)
          chunks).latestObject = .error e) :
    (submit env opts generatedId st input).onFinishCalls = [(none, some e)] ∧
    (submit env opts generatedId st input).onErrorCalls = [] ∧
    (submit env opts generatedId st input).state.error = none := by
  unfold submit
  rw [hout]
  rw [streamRun] at hval
  simp only [submitStart] at hval
  simp [submitResumed, handleClose, hfin, hval, submitStart]

/-- C1 witness: a concrete closed run whose final value fails validation. -/
theorem c1_witness :
    (submit envClosed optsW "g" (initClient optsW "g") ()).onFinishCalls
        = [(none, some "too short")] ∧
    (submit envClosed optsW "g" (initClient optsW "g") ()).onErrorCalls = [] ∧
    (submit envClosed optsW "g" (initClient optsW "g") ()).state.error = none := by
  exact c1_validation_error_only_via_finish envClosed optsW "g" (initClient optsW "g")
    () none ["a"] "too short" rfl rfl rfl

/-- C2 counterexample: a stream that completes normally while no `onFinish`
callback is configured; `safeValidateTypes` is never invoked, so the last
parsed value is not validated at stream end. -/
theorem c2_counterexample :
    envClosed.outcome = .response true none (some (.closed ["a"])) ∧
    (submit envClosed optsNoFinish "g" (initClient optsNoFinish "g") ()).validateCalls
        = [] := ⟨rfl, rfl⟩

/-- C2 (amended): for every stream that completes normally, provided an
`onFinish` callback is configured, the last successfully parsed value is
validated against the supplied schema at stream end. -/
theorem c2_close_validates_when_finish {V R I : Type} (env : SubmitEnv V R I)
    (opts : ClientOptions V) (generatedId : String) (st : ClientState V) (input : I)
    (responseText : Option String) (chunks : List String)
    (hout : env.outcome = .response true responseText (some (.closed chunks)))
    (hfin : opts.hasOnFinish = true) :
    (submit env opts generatedId st input).validateCalls =
      [(streamRun env (actualId opts generatedId) (submitStart opts generatedId st)
          chunks).latestObject] := by
  unfold submit
  rw [hout]
  simp only [submitResumed, streamRun]
  rw [handleClose_validateCalls, hfin]
  simp

/-- C2 witness: on a concrete closed run with `onFinish` configured, exactly
the last parsed value is validated. -/
theorem c2_witness :
    (submit envClosed optsW "g" (initClient optsW "g") ()).validateCalls
        = [some 1] := by
  have h := c2_close_validates_when_finish envClosed optsW "g" (initClient optsW "g")
    () none ["a"] rfl rfl
  exact h.trans rfl

/-- C3: every `onFinish` invocation carries exactly one defined field: either
the validated object and no error, or no object and the validation error. -/
theorem c3_finish_exactly_one {V R I : Type} (env : SubmitEnv V R I)
    (opts : ClientOptions V) (generatedId : String) (st : ClientState V) (input : I)
    (p : Option R × Option String)
    (hp : p ∈ (submit env opts generatedId st input).onFinishCalls) :
    (p.1.isSome = true ∧ p.2 = none) ∨ (p.1 = none ∧ p.2.isSome = true) := by
  unfold submit at hp
  rcases hout : env.outcome with e | ⟨ok, responseText, body⟩ <;> rw [hout] at hp
  · simp [submitResumed] at hp
  · cases ok with
    | false => simp [submitResumed] at hp
    | true =>
      cases body with
      | none => simp [submitResumed] at hp
      | some so =>
        cases so with
        | closed chunks =>
            simp only [submitResumed] at hp
            exact handleClose_finish_mem _ _ _ _ _ hp
        | aborted chunks => simp [submitResumed] at hp
        | failed chunks e => simp [submitResumed] at hp

/-- C3 witness: the event of the concrete failing-validation run has no
object and a defined error. -/
theorem c3_witness :
    (((none : Option Nat), (some "too short" : Option String)).1.isSome = true ∧
        ((none : Option Nat), (some "too short" : Option String)).2 = none) ∨
      (((none : Option Nat), (some "too short" : Option String)).1 = none ∧
        ((none : Option Nat), (some "too short" : Option String)).2.isSome = true) := by
  exact c3_finish_exactly_one envClosed optsW "g" (initClient optsW "g") ()
    ((none : Option Nat), (some "too short" : Option String)) (by decide)

/-- C4: a non-success HTTP status or a null response body raises a failure:
it is normalized to a generic error, delivered to `onError` when one is
provided, stored in the exposed error field, and the loading flag is set to
false (and `onFinish` is never reached). -/
theorem c4_http_failure {V R I : Type} (env : SubmitEnv V R I)
    (opts : ClientOptions V) (generatedId : String) (st : ClientState V) (input : I)
    (ok : Bool) (responseText : Option String) (body : Option StreamOutcome)
    (hout : env.outcome = .response ok responseText body)
    (hfail : ok = false ∨ body = none) :
    (submit env opts generatedId st input).state.loading = false ∧
    (submit env opts generatedId st input).state.error
        = some (failureMessage ok responseText) ∧
    (submit env opts generatedId st input).onErrorCalls
        = (if opts.hasOnError then [failureMessage ok responseText] else []) ∧
    (submit env opts generatedId st input).onFinishCalls = [] := by
  unfold submit
  rw [hout]
  rcases hfail with hok | hbody
  · subst hok
    simp [submitResumed, handleCatch, isAbortError, coalesceError, failureMessage]
  · subst hbody
    cases ok with
    | false =>
        simp [submitResumed, handleCatch, isAbortError, coalesceError, failureMessage]
    | true =>
        simp [submitResumed, handleCatch, isAbortError, coalesceError, failureMessage]

/-- C4 witness: a concrete non-ok response with body text `boom` surfaces the
error through `onError` and the error field and clears loading. -/
theorem c4_witness :
    (submit envHttpFail optsW "g" (initClient optsW "g") ()).state.loading = false ∧
    (submit envHttpFail optsW "g" (initClient optsW "g") ()).state.error
        = some "boom" ∧
    (submit envHttpFail optsW "g" (initClient optsW "g") ()).onErrorCalls
        = ["boom"] ∧
    (submit envHttpFail optsW "g" (initClient optsW "g") ()).onFinishCalls = [] := by
  have h := c4_http_failure envHttpFail optsW "g" (initClient optsW "g") ()
    false (some "boom") none rfl (Or.inl rfl)
  exact ⟨h.1, h.2.1.trans rfl, h.2.2.1.trans rfl, h.2.2.2⟩

/-- C5: a stream aborted mid-flight (user cancellation) terminates `submit`
silently: no `onError` or `onFinish` invocation, no error stored, and the
partial objects map is exactly the one produced by the chunks processed
before the abort; `stop` itself leaves the objects map and the error field
unchanged and clears the loading flag. -/
theorem c5_abort_silent {V R I : Type} (env : SubmitEnv V R I)
    (opts : ClientOptions V) (generatedId : String) (st : ClientState V) (input : I)
    (responseText : Option String) (chunks : List String)
    (hout : env.outcome = .response true responseText (some (.aborted chunks))) :
    (submit env opts generatedId st input).onErrorCalls = [] ∧
    (submit env opts generatedId st input).onFinishCalls = [] ∧
    (submit env opts generatedId st input).state.error = none ∧
    (submit env opts generatedId st input).state.objects =
      (streamRun env (actualId opts generatedId) (submitStart opts generatedId st)
        chunks).objects ∧
    (∀ s : ClientState V,
      (stop s).objects = s.objects ∧ (stop s).error = s.error ∧
      (stop s).loading = false) := by
  unfold submit
  rw [hout]
  refine ⟨?_, ?_, ?_, ?_, fun s => ⟨rfl, rfl, rfl⟩⟩ <;>
    simp [submitResumed, handleCatch, isAbortError, streamRun, submitStart]

/-- C5 witness: a concrete aborted run reports nothing and stores no error,
and `stop` clears loading. -/
theorem c5_witness :
    (submit envAbort optsW "g" (initClient optsW "g") ()).onErrorCalls = [] ∧
    (submit envAbort optsW "g" (initClient optsW "g") ()).state.error = none ∧
    (stop (initClient optsW "g")).loading = false := by
  have h := c5_abort_silent envAbort optsW "g" (initClient optsW "g") () none ["a"] rfl
  exact ⟨h.1, h.2.2.1, (h.2.2.2.2 (initClient optsW "g")).2.2⟩

/-- C8 counterexample: with configured headers containing their own
`Content-Type`, the issued request's `Content-Type` is the configured value,
not `application/json`, so the claim's two requirements cannot both hold. -/
theorem c8_counterexample :
    (submit envBase optsCT "g" (initClient optsCT "g") ()).request.headers
        "Content-Type" = some "text/plain" ∧
    ¬ (submit envBase optsCT "g" (initClient optsCT "g") ()).request.headers
        "Content-Type" = some "application/json" := by
  exact ⟨by decide, by decide⟩

/-- C8 (amended): every request issued by `submit` is a POST to the
configured api endpoint whose body is the JSON serialization of the input;
every configured header is included, and the `Content-Type` is
`application/json` unless a configured `Content-Type` header overrides it. -/
theorem c8_request_shape {V R I : Type} (env : SubmitEnv V R I)
    (opts : ClientOptions V) (generatedId : String) (st : ClientState V) (input : I) :
    (submit env opts generatedId st input).request.method = "POST" ∧
    (submit env opts generatedId st input).request.url = actualApi opts ∧
    (submit env opts generatedId st input).request.body = env.stringifyJson input ∧
    (∀ k v, opts.headers k = some v →
      (submit env opts generatedId st input).request.headers k = some v) ∧
    (opts.headers "Content-Type" = none →
      (submit env opts generatedId st input).request.headers "Content-Type"
          = some "application/json") := by
  have hreq : (submit env opts generatedId st input).request
      = buildRequest env opts input := by
    unfold submit
    exact submitResumed_request env opts env.outcome _ _ _
  rw [hreq]
  refine ⟨rfl, rfl, rfl, ?_, ?_⟩
  · intro k v h
    simp [buildRequest, requestHeaders, h]
  · intro h
    simp [buildRequest, requestHeaders, h]

/-- C8 witness: on concrete options with an extra header and no configured
`Content-Type`, the request is a POST carrying both the extra header and the
JSON content type. -/
theorem c8_witness :
    (submit envBase optsHdr "g" (initClient optsHdr "g") ()).request.method
        = "POST" ∧
    (submit envBase optsHdr "g" (initClient optsHdr "g") ()).request.headers
        "X-Api-Key" = some "k1" ∧
    (submit envBase optsHdr "g" (initClient optsHdr "g") ()).request.headers
        "Content-Type" = some "application/json" := by
  have h := c8_request_shape envBase optsHdr "g" (initClient optsHdr "g") ()
  exact ⟨h.1, h.2.2.2.1 "X-Api-Key" "k1" rfl, h.2.2.2.2 rfl⟩
